import Mathlib

/-!
Verification development for the CSV-GameChanger compliance core.

The Python modules `Agents/risk_strategist.py`, `Agents/integrity_manager.py`,
`Agents/verification_agent.py` and `Agents/requirement_architect.py` are
shallowly embedded below: pure functions become Lean functions, the audit
CSV file becomes an explicit list of rows threaded through the ledger
operation, Python exceptions become `Except` results, and machine words in
the SHA-256 computation are `Nat` values reduced mod 2^32.
-/

namespace CSVGC

/-! ## Byte-level helpers and SHA-256 (embedding of `hashlib.sha256`) -/

/-- reduce a natural number to a 32-bit word, as Python's masking does. -/
def w32 (n : Nat) : Nat := n % 4294967296

/-- right-rotation of a 32-bit word by `n` places. -/
def rotr32 (n x : Nat) : Nat := w32 ((x >>> n) ||| (x <<< (32 - n)))

/-- big-endian byte decomposition of `n` into exactly `k` bytes. -/
def bytesBE : Nat → Nat → List Nat
  | 0, _ => []
  | k + 1, n => bytesBE k (n / 256) ++ [n % 256]

/-- group a byte list into big-endian 32-bit words (four bytes per word). -/
def toWords32 : List Nat → List Nat
  | b0 :: b1 :: b2 :: b3 :: rest =>
      (((b0 * 256 + b1) * 256 + b2) * 256 + b3) :: toWords32 rest
  | _ => []

/-- the SHA-256 round constants, written in decimal. -/
def K256 : List Nat :=
  [1116352408, 1899447441, 3049323471, 3921009573, 961987163,
   1508970993, 2453635748, 2870763221, 3624381080, 310598401,
   607225278, 1426881987, 1925078388, 2162078206, 2614888103,
   3248222580, 3835390401, 4022224774, 264347078, 604807628,
   770255983, 1249150122, 1555081692, 1996064986, 2554220882,
   2821834349, 2952996808, 3210313671, 3336571891, 3584528711,
   113926993, 338241895, 666307205, 773529912, 1294757372,
   1396182291, 1695183700, 1986661051, 2177026350, 2456956037,
   2730485921, 2820302411, 3259730800, 3345764771, 3516065817,
   3600352804, 4094571909, 275423344, 430227734, 506948616,
   659060556, 883997877, 958139571, 1322822218, 1537002063,
   1747873779, 1955562222, 2024104815, 2227730452, 2361852424,
   2428436474, 2756734187, 3204031479, 3329325298]

/-- the SHA-256 initial hash state, written in decimal. -/
def H256 : List Nat :=
  [1779033703, 3144134277, 1013904242,
   2773480762, 1359893119, 2600822924,
   528734635, 1541459225]

/-- one message-schedule extension step; `rw` holds the words produced so
far, most recent first. -/
def scheduleStep (rw : List Nat) : Nat :=
  let w15 := rw.getD 14 0
  let w2 := rw.getD 1 0
  let s0 := (rotr32 7 w15) ^^^ (rotr32 18 w15) ^^^ (w15 >>> 3)
  let s1 := (rotr32 17 w2) ^^^ (rotr32 19 w2) ^^^ (w2 >>> 10)
  w32 (rw.getD 15 0 + s0 + rw.getD 6 0 + s1)

/-- extend the reversed message schedule by `n` further words. -/
def extendSched : Nat → List Nat → List Nat
  | 0, rw => rw
  | n + 1, rw => extendSched n (scheduleStep rw :: rw)

/-- one SHA-256 compression round over the state `[a,b,c,d,e,f,g,h]`. -/
def compressStep (st : List Nat) (kw : Nat × Nat) : List Nat :=
  match st with
  | [a, b, c, d, e, f, g, h] =>
      let s1 := rotr32 6 e ^^^ rotr32 11 e ^^^ rotr32 25 e
      let ch := (e &&& f) ^^^ ((e ^^^ 4294967295) &&& g)
      let t1 := w32 (h + s1 + ch + kw.1 + kw.2)
      let s0 := rotr32 2 a ^^^ rotr32 13 a ^^^ rotr32 22 a
      let maj := (a &&& b) ^^^ (a &&& c) ^^^ (b &&& c)
      let t2 := w32 (s0 + maj)
      [w32 (t1 + t2), a, b, c, w32 (d + t1), e, f, g]
  | _ => st

/-- compress one 64-byte block into the running hash state. -/
def sha256Compress (h : List Nat) (block : List Nat) : List Nat :=
  let ws := (extendSched 48 (toWords32 block).reverse).reverse
  let st := (K256.zip ws).foldl compressStep h
  (h.zip st).map (fun p => w32 (p.1 + p.2))

/-- fold the compression function over consecutive 64-byte blocks; `fuel`
bounds the recursion and is chosen larger than the block count. -/
def sha256Blocks : Nat → List Nat → List Nat → List Nat
  | 0, h, _ => h
  | _ + 1, h, [] => h
  | fuel + 1, h, bs => sha256Blocks fuel (sha256Compress h (bs.take 64)) (bs.drop 64)

/-- SHA-256 padding: append 0x80, zero bytes to 56 mod 64, then the
bit length as eight big-endian bytes. -/
def sha256Pad (msg : List Nat) : List Nat :=
  let L := msg.length
  let zeros := (119 - L % 64) % 64
  msg ++ [128] ++ List.replicate zeros 0 ++ bytesBE 8 (L * 8)

/-- SHA-256 digest of a byte list, as a list of 32 bytes. -/
def sha256Bytes (msg : List Nat) : List Nat :=
  let padded := sha256Pad msg
  let hs := sha256Blocks (padded.length + 1) H256 padded
  hs.foldr (fun w acc => bytesBE 4 w ++ acc) []

/-- UTF-8 encoding of one character, as byte values. -/
def charUtf8 (c : Char) : List Nat :=
  let n := c.toNat
  if n < 128 then [n]
  else if n < 2048 then [192 + n / 64, 128 + n % 64]
  else if n < 65536 then
    [224 + n / 4096, 128 + (n / 64) % 64, 128 + n % 64]
  else
    [240 + n / 262144, 128 + (n / 4096) % 64, 128 + (n / 64) % 64, 128 + n % 64]

/-- UTF-8 encoding of a string, matching Python's `str.encode("utf-8")`. -/
def strBytes (s : String) : List Nat :=
  (s.toList.map charUtf8).foldr (fun a acc => a ++ acc) []

/-- a lowercase hexadecimal digit character. -/
def hexDigit (n : Nat) : Char :=
  if n < 10 then Char.ofNat (48 + n) else Char.ofNat (87 + n)

/-- two-character lowercase hexadecimal rendering of one byte. -/
def byteToHex (b : Nat) : String :=
  String.mk [hexDigit (b / 16), hexDigit (b % 16)]

/-- hex digest of the SHA-256 of a string, matching
`hashlib.sha256(s.encode("utf-8")).hexdigest()`. -/
def sha256Hex (s : String) : String :=
  String.join ((sha256Bytes (strBytes s)).map byteToHex)

/-- NIST test vector pinning the SHA-256 embedding to the real function. -/
theorem sha256Bytes_abc_vector : sha256Bytes (strBytes "abc") =
    [0xba, 0x78, 0x16, 0xbf, 0x8f, 0x01, 0xcf, 0xea,
     0x41, 0x41, 0x40, 0xde, 0x5d, 0xae, 0x22, 0x23,
     0xb0, 0x03, 0x61, 0xa3, 0x96, 0x17, 0x7a, 0x9c,
     0xb4, 0x10, 0xff, 0x61, 0xf2, 0x00, 0x15, 0xad] := by decide

/-- test vector for the empty message, pinning the hex digest format. -/
theorem sha256Hex_empty_vector : sha256Hex "" =
    "e3b0c44298fc1c149afbf4c8996fb92427ae41e4649b934ca495991b7852b855" := by
  decide

/-! ## String helpers (embedding Python `str.lower` and the `in` operator) -/

/-- does `s` start with the pattern `pat`, over character lists? -/
def startsWithChars : List Char → List Char → Bool
  | _, [] => true
  | [], _ :: _ => false
  | a :: as, b :: bs => a == b && startsWithChars as bs

/-- does the pattern `pat` occur contiguously inside `s`, over character
lists? -/
def hasSubChars (pat : List Char) : List Char → Bool
  | [] => pat.isEmpty
  | c :: cs => startsWithChars (c :: cs) pat || hasSubChars pat cs

/-- embedding of Python's substring test `pat in s`. -/
def strContains (s pat : String) : Bool :=
  hasSubChars pat.toList s.toList

/-- lowercase a string, as Python's `str.lower` does on ASCII input. -/
def lowerStr (s : String) : String :=
  String.mk (s.toList.map Char.toLower)

/-- embedding of Python's `"|".join(parts)` as used for the hash payload
and of `", ".join(parts)` in finding details. -/
def strJoin (sep : String) : List String → String
  | [] => ""
  | [x] => x
  | x :: y :: rest => x ++ sep ++ strJoin sep (y :: rest)

/-! ## `Agents/risk_strategist.py` -/

/-- embedding of `risk_strategist.RiskLevel`. -/
inductive RiskLevel
  | LOW
  | MEDIUM
  | HIGH
deriving DecidableEq, Fintype

/-- the `.value` string of a `RiskLevel` member. -/
def RiskLevel.value : RiskLevel → String
  | .LOW => "Low"
  | .MEDIUM => "Medium"
  | .HIGH => "High"

/-- embedding of `risk_strategist.Severity`. -/
inductive Severity
  | LOW
  | MEDIUM
  | HIGH
deriving DecidableEq, Fintype

/-- the `.value` rank of a `Severity` member. -/
def Severity.value : Severity → Nat
  | .LOW => 1
  | .MEDIUM => 2
  | .HIGH => 3

/-- the `.name` string of a `Severity` member. -/
def Severity.name : Severity → String
  | .LOW => "LOW"
  | .MEDIUM => "MEDIUM"
  | .HIGH => "HIGH"

/-- embedding of `risk_strategist.Occurrence`. -/
inductive Occurrence
  | RARE
  | OCCASIONAL
  | FREQUENT
deriving DecidableEq, Fintype

/-- the `.value` rank of an `Occurrence` member. -/
def Occurrence.value : Occurrence → Nat
  | .RARE => 1
  | .OCCASIONAL => 2
  | .FREQUENT => 3

/-- the `.name` string of an `Occurrence` member. -/
def Occurrence.name : Occurrence → String
  | .RARE => "RARE"
  | .OCCASIONAL => "OCCASIONAL"
  | .FREQUENT => "FREQUENT"

/-- embedding of `risk_strategist.Detectability`. -/
inductive Detectability
  | HIGH
  | MEDIUM
  | LOW
deriving DecidableEq, Fintype

/-- the `.value` rank of a `Detectability` member. -/
def Detectability.value : Detectability → Nat
  | .HIGH => 1
  | .MEDIUM => 2
  | .LOW => 3

/-- the `.name` string of a `Detectability` member. -/
def Detectability.name : Detectability → String
  | .HIGH => "HIGH"
  | .MEDIUM => "MEDIUM"
  | .LOW => "LOW"

/-- embedding of `risk_strategist.TestingStrategy`. -/
inductive TestingStrategy
  | UNSCRIPTED
  | HYBRID
  | RIGOROUS_SCRIPTED
deriving DecidableEq, Fintype

/-- the `.value` string of a `TestingStrategy` member. -/
def TestingStrategy.value : TestingStrategy → String
  | .UNSCRIPTED => "Unscripted Testing"
  | .HYBRID => "Hybrid Testing (Scripted + Unscripted)"
  | .RIGOROUS_SCRIPTED => "Rigorous Scripted Testing"

/-- embedding of `risk_strategist._determine_risk_level`. -/
def _determine_risk_level (rpn : Nat) : RiskLevel :=
  if rpn ≤ 4 then RiskLevel.LOW
  else if rpn ≤ 12 then RiskLevel.MEDIUM
  else RiskLevel.HIGH

/-- embedding of `risk_strategist.calculate_risk_score`. -/
def calculate_risk_score (severity : Severity) (occurrence : Occurrence)
    (detectability : Detectability) : Nat × RiskLevel :=
  if severity = Severity.HIGH then
    let rpn := severity.value * occurrence.value * detectability.value
    (rpn, RiskLevel.HIGH)
  else
    let rpn := severity.value * occurrence.value * detectability.value
    (rpn, _determine_risk_level rpn)

/-- embedding of `risk_strategist.get_csa_testing_strategy`. -/
def get_csa_testing_strategy (risk_level : RiskLevel) : TestingStrategy :=
  if risk_level = RiskLevel.LOW then TestingStrategy.UNSCRIPTED
  else if risk_level = RiskLevel.MEDIUM then TestingStrategy.HYBRID
  else TestingStrategy.RIGOROUS_SCRIPTED

/-- the `criticality_map` dictionary inside `map_criticality_to_severity`. -/
def criticality_map : List (String × Severity) :=
  [("high", Severity.HIGH),
   ("critical", Severity.HIGH),
   ("medium", Severity.MEDIUM),
   ("moderate", Severity.MEDIUM),
   ("low", Severity.LOW),
   ("minor", Severity.LOW)]

/-- embedding of `risk_strategist.map_criticality_to_severity`: dictionary
lookup on the lowercased input with default `Severity.MEDIUM`. -/
def map_criticality_to_severity (system_criticality : String) : Severity :=
  (criticality_map.lookup (lowerStr system_criticality)).getD Severity.MEDIUM

/-- the `change_type_map` dictionary inside `map_change_type_to_occurrence`. -/
def change_type_map : List (String × Occurrence) :=
  [("emergency", Occurrence.FREQUENT),
   ("expedited", Occurrence.FREQUENT),
   ("normal", Occurrence.OCCASIONAL),
   ("standard", Occurrence.RARE),
   ("routine", Occurrence.RARE)]

/-- embedding of `risk_strategist.map_change_type_to_occurrence`: dictionary
lookup on the lowercased input with default `Occurrence.OCCASIONAL`. -/
def map_change_type_to_occurrence (change_type : String) : Occurrence :=
  (change_type_map.lookup (lowerStr change_type)).getD Occurrence.OCCASIONAL

/-- the dictionary returned by `assess_change_request`, as a structure with
one field per key. -/
structure ChangeAssessment where
  severity : String
  occurrence : String
  detectability : String
  rpn : Nat
  risk_level : String
  testing_strategy : String
  patient_safety_override : Bool
deriving DecidableEq

/-- embedding of `risk_strategist.assess_change_request`. -/
def assess_change_request (system_criticality change_type : String)
    (detectability : Detectability := Detectability.MEDIUM) : ChangeAssessment :=
  let severity := map_criticality_to_severity system_criticality
  let occurrence := map_change_type_to_occurrence change_type
  let p := calculate_risk_score severity occurrence detectability
  let testing_strategy := get_csa_testing_strategy p.2
  { severity := severity.name
    occurrence := occurrence.name
    detectability := detectability.name
    rpn := p.1
    risk_level := p.2.value
    testing_strategy := testing_strategy.value
    patient_safety_override := severity == Severity.HIGH }

/-! ## `Agents/requirement_architect.py` (matrices and lookups) -/

/-- embedding of `requirement_architect.RiskAssessmentCategory`. -/
inductive RiskAssessmentCategory
  | GXP_DIRECT
  | GXP_INDIRECT
  | GXP_NONE
deriving DecidableEq, Fintype

/-- embedding of `requirement_architect.ImplementationMethod`. -/
inductive ImplementationMethod
  | OUT_OF_THE_BOX
  | CONFIGURED
  | CUSTOM
deriving DecidableEq, Fintype

/-- embedding of `requirement_architect.URFRRiskLevel`. -/
inductive URFRRiskLevel
  | HIGH
  | MEDIUM
  | LOW
deriving DecidableEq, Fintype

/-- embedding of `requirement_architect.URFRTestStrategy`. -/
inductive URFRTestStrategy
  | OQ_UAT
  | INFORMAL
  | SUPPLIER_PROVIDED
deriving DecidableEq, Fintype

/-- embedding of the constant dictionary `requirement_architect._RISK_MATRIX`,
cell for cell. -/
def _RISK_MATRIX :
    List ((RiskAssessmentCategory × ImplementationMethod) × URFRRiskLevel) :=
  [((.GXP_DIRECT, .CUSTOM), .HIGH),
   ((.GXP_DIRECT, .CONFIGURED), .HIGH),
   ((.GXP_DIRECT, .OUT_OF_THE_BOX), .MEDIUM),
   ((.GXP_INDIRECT, .CUSTOM), .MEDIUM),
   ((.GXP_INDIRECT, .CONFIGURED), .HIGH),
   ((.GXP_INDIRECT, .OUT_OF_THE_BOX), .LOW),
   ((.GXP_NONE, .CUSTOM), .LOW),
   ((.GXP_NONE, .CONFIGURED), .LOW),
   ((.GXP_NONE, .OUT_OF_THE_BOX), .LOW)]

/-- embedding of the constant dictionary
`requirement_architect._TEST_STRATEGY_MATRIX`, cell for cell. -/
def _TEST_STRATEGY_MATRIX :
    List ((URFRRiskLevel × ImplementationMethod) × URFRTestStrategy) :=
  [((.HIGH, .OUT_OF_THE_BOX), .OQ_UAT),
   ((.HIGH, .CONFIGURED), .OQ_UAT),
   ((.HIGH, .CUSTOM), .OQ_UAT),
   ((.MEDIUM, .OUT_OF_THE_BOX), .SUPPLIER_PROVIDED),
   ((.MEDIUM, .CONFIGURED), .INFORMAL),
   ((.MEDIUM, .CUSTOM), .INFORMAL),
   ((.LOW, .OUT_OF_THE_BOX), .SUPPLIER_PROVIDED),
   ((.LOW, .CONFIGURED), .INFORMAL),
   ((.LOW, .CUSTOM), .INFORMAL)]

/-- embedding of `RequirementArchitect._determine_ur_fr_risk_level`: the
Python subscript `_RISK_MATRIX[(ra, im)]` raises `KeyError` on a missing
cell, modelled as the `Except.error` branch. -/
def _determine_ur_fr_risk_level (ra : RiskAssessmentCategory)
    (im : ImplementationMethod) : Except String URFRRiskLevel :=
  match _RISK_MATRIX.lookup (ra, im) with
  | some v => Except.ok v
  | none => Except.error "KeyError"

/-- embedding of `RequirementArchitect._determine_ur_fr_test_strategy`, with
the `KeyError` branch modelled as `Except.error`. -/
def _determine_ur_fr_test_strategy (risk_level : URFRRiskLevel)
    (im : ImplementationMethod) : Except String URFRTestStrategy :=
  match _TEST_STRATEGY_MATRIX.lookup (risk_level, im) with
  | some v => Except.ok v
  | none => Except.error "KeyError"

/-! ## `Agents/verification_agent.py`

The Pinecone retrieval and OpenAI embedding calls are external collaborators:
`verify_urs` below takes the retrieved match list as a parameter, exactly the
data `_query_pinecone` hands to the three checks in the source. The audit
logging calls inside `verify_urs` write to the ledger but do not influence
the returned `VerificationResult`, so they are not part of this embedding. -/

/-- embedding of the constant `RATIONALE_RELEVANCE_THRESHOLD = 0.45`. -/
def RATIONALE_RELEVANCE_THRESHOLD : ℚ := mkRat 45 100

/-- embedding of the constant list `HIGH_RISK_INDICATORS`. -/
def HIGH_RISK_INDICATORS : List String :=
  ["patient", "safety", "critical", "gxp",
   "sterile", "batch release", "adverse event",
   "pharmacovigilance", "clinical", "life-sustaining",
   "life-supporting", "validated", "21 cfr part 11"]

/-- one entry of `_CONTRADICTION_PAIRS`. -/
structure ContradictionPair where
  requirement_phrases : List String
  gamp5_keywords : List String

/-- embedding of the constant list `_CONTRADICTION_PAIRS`. -/
def _CONTRADICTION_PAIRS : List ContradictionPair :=
  [{ requirement_phrases :=
       ["skip validation", "no validation required",
        "validation is unnecessary",
        "does not require validation"],
     gamp5_keywords :=
       ["validation", "shall be validated",
        "validation is required"] },
   { requirement_phrases :=
       ["skip testing", "no testing required",
        "testing is unnecessary",
        "does not require testing"],
     gamp5_keywords :=
       ["testing", "shall be tested",
        "test plan", "verification"] },
   { requirement_phrases :=
       ["no audit trail", "disable audit",
        "audit trail is not needed",
        "without audit trail"],
     gamp5_keywords :=
       ["audit trail", "traceability",
        "electronic record", "21 cfr part 11"] },
   { requirement_phrases :=
       ["no change control",
        "bypass change control",
        "without change control"],
     gamp5_keywords :=
       ["change control", "change management"] }]

/-- embedding of the constant `URS_REQUIRED_FIELDS`. -/
def URS_REQUIRED_FIELDS : List String :=
  ["URS_ID", "Requirement_Statement", "Criticality", "Regulatory_Rationale"]

/-- one retrieved GAMP 5 chunk, as built by `_query_pinecone`: the
similarity score is modelled as a rational number (only comparisons and
maxima of scores occur in the source). -/
structure GampMatch where
  chunk_id : String
  text : String
  source_document : String
  page_number : Nat
  score : ℚ
  reg_version : String
deriving DecidableEq

/-- embedding of the dataclass `VerificationFinding`. -/
structure VerificationFinding where
  check_name : String
  status : String
  detail : String
  gamp5_reference : String
deriving DecidableEq

/-- embedding of the dataclass `VerificationResult`. -/
structure VerificationResult where
  urs_id : String
  verdict : String
  findings : List VerificationFinding
deriving DecidableEq

/-- two-decimal rendering of a nonnegative rational, modelling CPython's
`f"{x:.2f}"` on the scores compared here: the value is scaled to
hundredths and rounded half up, computed directly from the numerator and
denominator so the kernel can evaluate it. -/
def fmt2 (q : ℚ) : String :=
  let c := (200 * q.num.toNat + q.den) / (2 * q.den)
  toString (c / 100) ++ "." ++
    (if c % 100 < 10 then "0" ++ toString (c % 100) else toString (c % 100))

/-- embedding of `VerificationAgent._format_gamp5_ref`; the Python
`m["source_document"] or "GAMP 5"` falls back on the empty string, and
`m["page_number"] or 0` is the identity on a number. -/
def _format_gamp5_ref (matchList : List GampMatch) : String :=
  match matchList with
  | [] => "No GAMP 5 reference available"
  | m :: _ =>
      let src := if m.source_document == "" then "GAMP 5" else m.source_document
      let pg := m.page_number
      let txt := m.text.take 150
      let ver := m.reg_version
      if ver != "" then
        "Per " ++ src ++ " [" ++ ver ++ "] (p." ++ toString pg ++ "): " ++ txt ++ "..."
      else
        "Per " ++ src ++ " (p." ++ toString pg ++ "): " ++ txt ++ "..."

/-- embedding of `VerificationAgent._check_criticality_alignment`. -/
def _check_criticality_alignment (statement criticality : String)
    (matchList : List GampMatch) : VerificationFinding :=
  let gamp5_ref := _format_gamp5_ref matchList
  if lowerStr criticality == "high" then
    { check_name := "Criticality Alignment"
      status := "Pass"
      detail := "Criticality is " ++ criticality ++
        "; no under-classification possible."
      gamp5_reference := gamp5_ref }
  else
    let context := strJoin " " (matchList.map (fun m => lowerStr m.text))
    let statement_lower := lowerStr statement
    let triggered := HIGH_RISK_INDICATORS.filter
      (fun indicator =>
        strContains context indicator || strContains statement_lower indicator)
    if !triggered.isEmpty then
      { check_name := "Criticality Alignment"
        status := "Fail"
        detail := "Criticality is " ++ criticality ++
          " but GAMP 5 context contains high-risk indicators: " ++
          strJoin ", " triggered ++ ". Requirement may be under-classified."
        gamp5_reference := gamp5_ref }
    else
      { check_name := "Criticality Alignment"
        status := "Pass"
        detail := "Criticality " ++ criticality ++
          " is consistent with the retrieved GAMP 5 guidance."
        gamp5_reference := gamp5_ref }

/-- embedding of `VerificationAgent._check_rationale_relevance`; the
`statement` parameter is unused in the source body as well (it was consumed
upstream to produce the match list). -/
def _check_rationale_relevance (_statement : String)
    (matchList : List GampMatch) : VerificationFinding :=
  let gamp5_ref := _format_gamp5_ref matchList
  match matchList with
  | [] =>
      { check_name := "Rationale Relevance"
        status := "Fail"
        detail := "No GAMP 5 chunks were retrieved for this requirement; " ++
          "the regulatory rationale cannot be substantiated."
        gamp5_reference := gamp5_ref }
  | m :: ms =>
      let best_score := ms.foldl (fun acc x => max acc x.score) m.score
      if best_score < RATIONALE_RELEVANCE_THRESHOLD then
        { check_name := "Rationale Relevance"
          status := "Fail"
          detail := "Best GAMP 5 match score is " ++ fmt2 best_score ++
            ", below the 0.45 threshold. The cited rationale may not " ++
            "adequately support this requirement."
          gamp5_reference := gamp5_ref }
      else
        { check_name := "Rationale Relevance"
          status := "Pass"
          detail := "Best GAMP 5 match score is " ++ fmt2 best_score ++
            ", above the 0.45 threshold. Rationale is relevant."
          gamp5_reference := gamp5_ref }

/-- the inner loop of `_check_contradictions` for one contradiction pair:
first matching requirement phrase, then first opposing keyword. -/
def pairContradiction (statement_lower context : String)
    (pair : ContradictionPair) : Option String :=
  match pair.requirement_phrases.find?
      (fun phrase => strContains statement_lower phrase) with
  | none => none
  | some req_hit =>
      match pair.gamp5_keywords.find? (fun kw => strContains context kw) with
      | none => none
      | some kw =>
          some ("Requirement contains '" ++ req_hit ++
            "' but GAMP 5 text states '" ++ kw ++ "'")

/-- embedding of `VerificationAgent._check_contradictions`; the reference
string is built by the same logic as `_format_gamp5_ref` (the source inlines
a copy of it). -/
def _check_contradictions (statement : String)
    (matchList : List GampMatch) : VerificationFinding :=
  let gamp5_ref := _format_gamp5_ref matchList
  let statement_lower := lowerStr statement
  let context := strJoin " " (matchList.map (fun m => lowerStr m.text))
  let contradictions :=
    _CONTRADICTION_PAIRS.filterMap (pairContradiction statement_lower context)
  if !contradictions.isEmpty then
    { check_name := "Contradiction Scan"
      status := "Fail"
      detail := "Direct contradiction(s) detected: " ++
        strJoin "; " contradictions ++ "."
      gamp5_reference := gamp5_ref }
  else
    { check_name := "Contradiction Scan"
      status := "Pass"
      detail := "No contradictions detected between the requirement " ++
        "and GAMP 5 guidance."
      gamp5_reference := gamp5_ref }

/-- embedding of `VerificationAgent._validate_urs`: the fields missing from
the URS dictionary, in the fixed order of `URS_REQUIRED_FIELDS`. -/
def missingURSFields (urs : List (String × String)) : List String :=
  URS_REQUIRED_FIELDS.filter (fun f => (urs.lookup f).isNone)

/-- embedding of `VerificationAgent.verify_urs`. The URS dictionary is an
association list; `matchList` (the source name is `matches`, a reserved word in Lean) is the chunk list that `_query_pinecone` returns
for the statement's embedding. `Except.error` is the `InvalidURSError` path,
carrying the missing field names. -/
def verify_urs (urs : List (String × String)) (matchList : List GampMatch) :
    Except (List String) VerificationResult :=
  let missing := missingURSFields urs
  if !missing.isEmpty then Except.error missing
  else
    let urs_id := (urs.lookup "URS_ID").getD ""
    let statement := (urs.lookup "Requirement_Statement").getD ""
    let criticality := (urs.lookup "Criticality").getD ""
    let findings :=
      [_check_criticality_alignment statement criticality matchList,
       _check_rationale_relevance statement matchList,
       _check_contradictions statement matchList]
    let has_failure := findings.any (fun f => f.status == "Fail")
    let verdict := if has_failure then "Rejected" else "Approved"
    Except.ok { urs_id := urs_id, verdict := verdict, findings := findings }

/-! ## `Agents/integrity_manager.py`

The audit-trail CSV file is modelled as the list of its rows, and the
logic-archive directory as the list of archive filenames written so far,
both threaded explicitly through `log_audit_event`. The wall-clock
timestamp (`datetime.now(timezone.utc).isoformat()`) is an external input
and becomes an explicit parameter. A Python `ValueError` escaping the call
is the `Except.error` outcome; because the exception propagates after the
CSV row has already been written, the final file state is returned next to
the outcome rather than inside it. -/

/-- embedding of the constant `CSV_COLUMNS`. -/
def CSV_COLUMNS : List String :=
  ["Timestamp", "User_ID", "Agent_Name", "Action_Performed",
   "Decision_Logic", "Reasoning_Hash", "Compliance_Impact"]

/-- embedding of the constant dictionary `_IMPACT_MAP`. -/
def _IMPACT_MAP : List (String × String) :=
  [("SEARCH_KNOWLEDGE_BASE", "Reference Query"),
   ("URS_GENERATED", "GxP Documentation"),
   ("URS_GENERATION_FAILED", "GxP Documentation"),
   ("URS_TRANSFORMED_TO_UR_FR", "GxP Documentation"),
   ("DOCUMENT_INGESTED", "Data Integrity"),
   ("DOCUMENT_INGESTION_FAILED", "Data Integrity"),
   ("BATCH_INGESTION_COMPLETED", "Data Integrity"),
   ("GAP_ANALYSIS_COMPLETED", "Regulatory Compliance"),
   ("GAP_ANALYSIS_FAILED", "Regulatory Compliance"),
   ("RISK_ASSESSMENT_COMPLETED", "Patient Safety"),
   ("TEST_SCRIPT_GENERATED", "Validation Evidence"),
   ("TEST_SCRIPT_GENERATION_FAILED", "Validation Evidence"),
   ("TEST_BATCH_GENERATED", "Validation Evidence"),
   ("CHANGE_REQUEST_RECEIVED", "Change Control"),
   ("CHANGE_REQUEST_ASSESSED", "Change Control"),
   ("CHANGE_REQUEST_FAILED", "Change Control"),
   ("DOCUMENT_SIGN_OFF", "Electronic Signature"),
   ("URS_VERIFIED", "Regulatory Compliance"),
   ("COMPLIANCE_EXCEPTION", "Compliance Exception"),
   ("URS_BATCH_VERIFIED", "Regulatory Compliance")]

/-- embedding of the constant `DEFAULT_IMPACT`. -/
def DEFAULT_IMPACT : String := "Operational"

/-- the payload string the reasoning hash is computed over:
`"|".join([timestamp, user_id, agent_name, action, decision_logic,
compliance_impact])` in `_compute_reasoning_hash`. -/
def reasoningPayload (timestamp user_id agent_name action decision_logic
    compliance_impact : String) : String :=
  strJoin "|"
    [timestamp, user_id, agent_name, action, decision_logic, compliance_impact]

/-- embedding of `integrity_manager._compute_reasoning_hash`. -/
def _compute_reasoning_hash (timestamp user_id agent_name action
    decision_logic compliance_impact : String) : String :=
  sha256Hex (reasoningPayload timestamp user_id agent_name action
    decision_logic compliance_impact)

/-- the `thought_process` dictionary: each of the three required keys may be
absent (`none`). A present `steps` value is a list by construction, which
matches the only type check `_validate_thought_process` performs. -/
structure ThoughtProcess where
  inputs : Option String
  steps : Option (List String)
  outputs : Option String
deriving DecidableEq

/-- the required keys absent from a `thought_process`, in the sorted order
`_validate_thought_process` reports them (inputs < outputs < steps). -/
def missingTPKeys (tp : ThoughtProcess) : List String :=
  (if tp.inputs.isNone then ["inputs"] else []) ++
  (if tp.outputs.isNone then ["outputs"] else []) ++
  (if tp.steps.isNone then ["steps"] else [])

/-- embedding of `integrity_manager._validate_thought_process`; the
`ValueError` it raises becomes `Except.error` with the source's message. -/
def _validate_thought_process (tp : ThoughtProcess) : Except String Unit :=
  let missing := missingTPKeys tp
  if !missing.isEmpty then
    Except.error
      ("thought_process missing required keys: " ++ strJoin ", " missing)
  else
    Except.ok ()

/-- removal of the characters in `cs` from `s`, embedding the chained
`timestamp.replace(":", "").replace("-", "")` in `_write_logic_archive`. -/
def stripChars (cs : List Char) (s : String) : String :=
  String.mk (s.toList.filter (fun c => !cs.contains c))

/-- the logic-archive filename
`.{action}_{ts_compact}_{audit_trail_hash[:8]}.json` built by
`_write_logic_archive`. -/
def archiveFilename (action timestamp audit_trail_hash : String) : String :=
  "." ++ action ++ "_" ++ stripChars [':', '-'] timestamp ++ "_" ++
    audit_trail_hash.take 8 ++ ".json"

/-- the persistent state `log_audit_event` touches: the audit-trail CSV rows
and the names of the logic-archive files written so far. -/
structure AuditState where
  rows : List (List String)
  archives : List String
deriving DecidableEq

/-- embedding of `integrity_manager._ensure_csv_header`: the header row is
appended when the file does not exist or is empty. -/
def _ensure_csv_header (rows : List (List String)) : List (List String) :=
  if rows.isEmpty then [CSV_COLUMNS] else rows

/-- embedding of `integrity_manager.log_audit_event`. Parameters follow the
source (defaults: `user_id = "SYSTEM"`, `decision_logic = ""`,
`compliance_impact = None`, `thought_process = None`); `timestamp` is the
clock reading taken at entry and `st` the state of the files. The source
writes the CSV row first and validates `thought_process` afterwards, so on
a malformed thought process the returned state already contains the new
row while the outcome is the propagated `ValueError`. -/
def log_audit_event (timestamp agent_name action user_id decision_logic :
    String) (compliance_impact : Option String)
    (thought_process : Option ThoughtProcess) (st : AuditState) :
    AuditState × Except String String :=
  let impact :=
    match compliance_impact with
    | none => (_IMPACT_MAP.lookup action).getD DEFAULT_IMPACT
    | some ci => ci
  let reasoning_hash :=
    _compute_reasoning_hash timestamp user_id agent_name action
      decision_logic impact
  let row :=
    [timestamp, user_id, agent_name, action, decision_logic,
     reasoning_hash, impact]
  let rows2 := _ensure_csv_header st.rows ++ [row]
  match thought_process with
  | none => ({ rows := rows2, archives := st.archives }, Except.ok reasoning_hash)
  | some tp =>
      match _validate_thought_process tp with
      | Except.error e =>
          ({ rows := rows2, archives := st.archives }, Except.error e)
      | Except.ok _ =>
          ({ rows := rows2
             archives := st.archives ++
               [archiveFilename action timestamp reasoning_hash] },
           Except.ok reasoning_hash)

/-! ## Claims about the risk scoring engine -/

/-- C1: for every occurrence and detectability, `calculate_risk_score`
called with severity High returns risk level High, even though the raw
score alone would map elsewhere; in particular severity=High,
occurrence=Occasional(2), detectability=Medium(2) yields score 12 — which
`_determine_risk_level` alone maps to Medium — with risk level High, and
the testing strategy for that risk level is RigorousScripted. -/
theorem c1_high_severity_override :
    (∀ (o : Occurrence) (d : Detectability),
      (calculate_risk_score Severity.HIGH o d).2 = RiskLevel.HIGH) ∧
    calculate_risk_score Severity.HIGH Occurrence.OCCASIONAL
      Detectability.MEDIUM = (12, RiskLevel.HIGH) ∧
    _determine_risk_level 12 = RiskLevel.MEDIUM ∧
    get_csa_testing_strategy
      (calculate_risk_score Severity.HIGH Occurrence.OCCASIONAL
        Detectability.MEDIUM).2 = TestingStrategy.RIGOROUS_SCRIPTED := by
  decide

/-- C4: the score returned by `calculate_risk_score` is always the product
of the three ranks and lies in [1, 27]; when severity is not High, the
risk level is Low iff score ≤ 4, Medium iff 4 < score ≤ 12, and High iff
score > 12. -/
theorem c4_score_product_and_thresholds :
    ∀ (s : Severity) (o : Occurrence) (d : Detectability),
      (calculate_risk_score s o d).1 = s.value * o.value * d.value ∧
      1 ≤ (calculate_risk_score s o d).1 ∧
      (calculate_risk_score s o d).1 ≤ 27 ∧
      (s ≠ Severity.HIGH →
        (((calculate_risk_score s o d).2 = RiskLevel.LOW ↔
            (calculate_risk_score s o d).1 ≤ 4) ∧
         ((calculate_risk_score s o d).2 = RiskLevel.MEDIUM ↔
            (4 < (calculate_risk_score s o d).1 ∧
              (calculate_risk_score s o d).1 ≤ 12)) ∧
         ((calculate_risk_score s o d).2 = RiskLevel.HIGH ↔
            12 < (calculate_risk_score s o d).1))) := by
  decide

/-- witness for C4 at severity=Medium, occurrence=Frequent,
detectability=Low (score 18, above the High threshold). -/
theorem c4_score_product_and_thresholds_witness :
    (calculate_risk_score Severity.MEDIUM Occurrence.FREQUENT
      Detectability.LOW).2 = RiskLevel.HIGH ↔
    12 < (calculate_risk_score Severity.MEDIUM Occurrence.FREQUENT
      Detectability.LOW).1 :=
  ((c4_score_product_and_thresholds Severity.MEDIUM Occurrence.FREQUENT
    Detectability.LOW).2.2.2 (by decide)).2.2

/-- C5: both constant matrices cover the full cross-product of their input
enumerations, so the two lookups are total — the missing-key (`KeyError`)
branch is unreachable on enum inputs — and, being pure functions of their
arguments, they return the same value on every repeated call. -/
theorem c5_matrices_total_and_stable :
    (∀ (ra : RiskAssessmentCategory) (im : ImplementationMethod),
      ∃ v, _determine_ur_fr_risk_level ra im = Except.ok v) ∧
    (∀ (rl : URFRRiskLevel) (im : ImplementationMethod),
      ∃ v, _determine_ur_fr_test_strategy rl im = Except.ok v) ∧
    (∀ (ra : RiskAssessmentCategory) (im : ImplementationMethod),
      _determine_ur_fr_risk_level ra im = _determine_ur_fr_risk_level ra im) ∧
    (∀ (rl : URFRRiskLevel) (im : ImplementationMethod),
      _determine_ur_fr_test_strategy rl im =
        _determine_ur_fr_test_strategy rl im) := by
  refine ⟨?_, ?_, fun _ _ => rfl, fun _ _ => rfl⟩ <;>
    (intro a b; cases a <;> cases b <;> exact ⟨_, rfl⟩)

/-- C8: the free-text mapping helpers look the lowercased input up in their
fixed tables and fall back on Medium severity and Occasional occurrence for
unmapped strings; as total Lean functions of a string they cannot raise. -/
theorem c8_free_text_mapping_defaults :
    ∀ s : String,
      (∀ v, criticality_map.lookup (lowerStr s) = some v →
        map_criticality_to_severity s = v) ∧
      (criticality_map.lookup (lowerStr s) = none →
        map_criticality_to_severity s = Severity.MEDIUM) ∧
      (∀ v, change_type_map.lookup (lowerStr s) = some v →
        map_change_type_to_occurrence s = v) ∧
      (change_type_map.lookup (lowerStr s) = none →
        map_change_type_to_occurrence s = Occurrence.OCCASIONAL) := by
  intro s
  refine ⟨fun v h => ?_, fun h => ?_, fun v h => ?_, fun h => ?_⟩ <;>
    simp [map_criticality_to_severity, map_change_type_to_occurrence, h]

/-- witness for C8: a mapped criticality (case-insensitive hit) and an
unmapped change type (fail-open default). -/
theorem c8_free_text_mapping_defaults_witness :
    map_criticality_to_severity "CRITICAL" = Severity.HIGH ∧
    map_change_type_to_occurrence "unforeseen" = Occurrence.OCCASIONAL :=
  ⟨(c8_free_text_mapping_defaults "CRITICAL").1 Severity.HIGH (by decide),
   (c8_free_text_mapping_defaults "unforeseen").2.2.2 (by decide)⟩

/-- C10: in the dictionary returned by `assess_change_request`, the
`patient_safety_override` flag is set exactly when the mapped severity is
High, and whenever it is set the `risk_level` entry is the string "High". -/
theorem c10_assess_override_iff_high :
    ∀ (sc ct : String) (d : Detectability),
      ((assess_change_request sc ct d).patient_safety_override = true ↔
        map_criticality_to_severity sc = Severity.HIGH) ∧
      ((assess_change_request sc ct d).patient_safety_override = true →
        (assess_change_request sc ct d).risk_level = "High") := by
  intro sc ct d
  simp only [assess_change_request]
  generalize map_criticality_to_severity sc = s
  generalize map_change_type_to_occurrence ct = o
  revert s o d
  decide

/-- witness for C10 at a concrete high-criticality change request. -/
theorem c10_assess_override_iff_high_witness :
    (assess_change_request "critical" "standard" Detectability.HIGH).risk_level
      = "High" :=
  (c10_assess_override_iff_high "critical" "standard" Detectability.HIGH).2
    (by decide)

/-! ## Claims about the verification rule engine -/

lemma crit_check_name (st cr : String) (ms : List GampMatch) :
    (_check_criticality_alignment st cr ms).check_name =
      "Criticality Alignment" := by
  unfold _check_criticality_alignment
  split
  · rfl
  · dsimp only
    split <;> rfl

lemma rationale_check_name (st : String) (ms : List GampMatch) :
    (_check_rationale_relevance st ms).check_name = "Rationale Relevance" := by
  unfold _check_rationale_relevance
  split
  · rfl
  · dsimp only
    split <;> rfl

lemma contradiction_check_name (st : String) (ms : List GampMatch) :
    (_check_contradictions st ms).check_name = "Contradiction Scan" := by
  unfold _check_contradictions
  dsimp only
  split <;> rfl

lemma verify_urs_ok (urs : List (String × String)) (ms : List GampMatch)
    (h : missingURSFields urs = []) :
    verify_urs urs ms =
      Except.ok
        { urs_id := (urs.lookup "URS_ID").getD ""
          verdict :=
            if ([_check_criticality_alignment
                  ((urs.lookup "Requirement_Statement").getD "")
                  ((urs.lookup "Criticality").getD "") ms,
                _check_rationale_relevance
                  ((urs.lookup "Requirement_Statement").getD "") ms,
                _check_contradictions
                  ((urs.lookup "Requirement_Statement").getD "") ms].any
                (fun f => f.status == "Fail")) then "Rejected" else "Approved"
          findings :=
            [_check_criticality_alignment
                ((urs.lookup "Requirement_Statement").getD "")
                ((urs.lookup "Criticality").getD "") ms,
             _check_rationale_relevance
                ((urs.lookup "Requirement_Statement").getD "") ms,
             _check_contradictions
                ((urs.lookup "Requirement_Statement").getD "") ms] } := by
  unfold verify_urs
  rw [h]
  rfl

lemma verdict_iff (fs : List VerificationFinding) :
    ((if fs.any (fun f => f.status == "Fail") then "Rejected" else "Approved")
        = "Rejected" ↔ ∃ f ∈ fs, f.status = "Fail") ∧
    ((if fs.any (fun f => f.status == "Fail") then "Rejected" else "Approved")
        = "Approved" ↔ ∀ f ∈ fs, f.status ≠ "Fail") := by
  constructor <;> split <;> rename_i hany <;>
    simp only [List.any_eq_true, beq_iff_eq] at hany <;> simp_all

/-- C3: on every URS input containing the required fields, `verify_urs`
returns a result with exactly three findings — one from each of the three
checks, all of which run — and the verdict is Rejected iff some finding has
status Fail, Approved otherwise. -/
theorem c3_verify_urs_three_findings_verdict_iff :
    ∀ (urs : List (String × String)) (ms : List GampMatch),
      missingURSFields urs = [] →
      ∃ r, verify_urs urs ms = Except.ok r ∧
        r.findings =
          [_check_criticality_alignment
              ((urs.lookup "Requirement_Statement").getD "")
              ((urs.lookup "Criticality").getD "") ms,
           _check_rationale_relevance
              ((urs.lookup "Requirement_Statement").getD "") ms,
           _check_contradictions
              ((urs.lookup "Requirement_Statement").getD "") ms] ∧
        r.findings.length = 3 ∧
        (r.verdict = "Rejected" ↔ ∃ f ∈ r.findings, f.status = "Fail") ∧
        (r.verdict = "Approved" ↔ ∀ f ∈ r.findings, f.status ≠ "Fail") := by
  intro urs ms h
  exact ⟨_, verify_urs_ok urs ms h, rfl, rfl, (verdict_iff _).1,
    (verdict_iff _).2⟩

/-- witness for C3 at the docstring example URS and one relevant chunk. -/
theorem c3_verify_urs_three_findings_verdict_iff_witness :
    ∃ r, verify_urs
        [("URS_ID", "URS-7.1"),
         ("Requirement_Statement",
          "The system shall track warehouse temperature."),
         ("Criticality", "Medium"),
         ("Regulatory_Rationale", "Per GAMP 5 Section 2")]
        [{ chunk_id := "chunk-9"
           text := "Temperature monitoring requirements for storage areas"
           source_document := "GAMP 5"
           page_number := 101
           score := mkRat 72 100
           reg_version := "" }] = Except.ok r ∧
      r.findings =
        [_check_criticality_alignment
            "The system shall track warehouse temperature." "Medium"
            [{ chunk_id := "chunk-9"
               text := "Temperature monitoring requirements for storage areas"
               source_document := "GAMP 5"
               page_number := 101
               score := mkRat 72 100
               reg_version := "" }],
         _check_rationale_relevance
            "The system shall track warehouse temperature."
            [{ chunk_id := "chunk-9"
               text := "Temperature monitoring requirements for storage areas"
               source_document := "GAMP 5"
               page_number := 101
               score := mkRat 72 100
               reg_version := "" }],
         _check_contradictions
            "The system shall track warehouse temperature."
            [{ chunk_id := "chunk-9"
               text := "Temperature monitoring requirements for storage areas"
               source_document := "GAMP 5"
               page_number := 101
               score := mkRat 72 100
               reg_version := "" }]] ∧
      r.findings.length = 3 ∧
      (r.verdict = "Rejected" ↔ ∃ f ∈ r.findings, f.status = "Fail") ∧
      (r.verdict = "Approved" ↔ ∀ f ∈ r.findings, f.status ≠ "Fail") :=
  c3_verify_urs_three_findings_verdict_iff
    [("URS_ID", "URS-7.1"),
     ("Requirement_Statement",
      "The system shall track warehouse temperature."),
     ("Criticality", "Medium"),
     ("Regulatory_Rationale", "Per GAMP 5 Section 2")]
    [{ chunk_id := "chunk-9"
       text := "Temperature monitoring requirements for storage areas"
       source_document := "GAMP 5"
       page_number := 101
       score := mkRat 72 100
       reg_version := "" }]
    (by decide)

/-- C9: the findings list of `verify_urs` is always in the fixed order
Criticality Alignment, Rationale Relevance, Contradiction Scan, each check
name occurring exactly once. -/
theorem c9_findings_fixed_order :
    ∀ (urs : List (String × String)) (ms : List GampMatch),
      missingURSFields urs = [] →
      ∃ r, verify_urs urs ms = Except.ok r ∧
        r.findings.map VerificationFinding.check_name =
          ["Criticality Alignment", "Rationale Relevance",
           "Contradiction Scan"] ∧
        (r.findings.map VerificationFinding.check_name).Nodup := by
  intro urs ms h
  refine ⟨_, verify_urs_ok urs ms h, ?_, ?_⟩
  · dsimp only [List.map]
    rw [crit_check_name, rationale_check_name, contradiction_check_name]
  · dsimp only [List.map]
    rw [crit_check_name, rationale_check_name, contradiction_check_name]
    decide

/-- C6: the Criticality Alignment check passes unconditionally when the
assigned criticality equals High case-insensitively; otherwise it fails
exactly when some fixed high-risk indicator term occurs in the lowercased
statement or in the concatenated lowercased passage text, and the failure
detail lists the matched terms. Concretely, criticality Low with a passage
containing "patient safety" yields a Fail finding and verdict Rejected
while the other two checks pass. -/
theorem c6_criticality_alignment_check :
    (∀ (st cr : String) (ms : List GampMatch), lowerStr cr = "high" →
      (_check_criticality_alignment st cr ms).status = "Pass") ∧
    (∀ (st cr : String) (ms : List GampMatch), lowerStr cr ≠ "high" →
      ((_check_criticality_alignment st cr ms).status = "Fail" ↔
        ∃ t ∈ HIGH_RISK_INDICATORS,
          strContains (strJoin " " (ms.map (fun m => lowerStr m.text))) t
              = true ∨
            strContains (lowerStr st) t = true)) ∧
    (∀ (st cr : String) (ms : List GampMatch), lowerStr cr ≠ "high" →
      (_check_criticality_alignment st cr ms).status = "Fail" →
      (_check_criticality_alignment st cr ms).detail =
        "Criticality is " ++ cr ++
          " but GAMP 5 context contains high-risk indicators: " ++
          strJoin ", " (HIGH_RISK_INDICATORS.filter (fun indicator =>
            strContains (strJoin " " (ms.map (fun m => lowerStr m.text)))
                indicator ||
              strContains (lowerStr st) indicator)) ++
          ". Requirement may be under-classified.") ∧
    ((verify_urs
        [("URS_ID", "URS-4"),
         ("Requirement_Statement",
          "The system shall record warehouse temperature readings."),
         ("Criticality", "Low"),
         ("Regulatory_Rationale", "Per GAMP 5")]
        [{ chunk_id := "chunk-3"
           text := "Ensuring patient safety is paramount during release"
           source_document := "GAMP 5"
           page_number := 12
           score := mkRat 88 100
           reg_version := "" }]).toOption.map
        (fun r => (r.verdict, r.findings.map (fun f => (f.check_name, f.status))))
      = some
          ("Rejected",
           [("Criticality Alignment", "Fail"),
            ("Rationale Relevance", "Pass"),
            ("Contradiction Scan", "Pass")])) := by
  refine ⟨?_, ?_, ?_, by decide⟩
  · intro st cr ms h
    simp [_check_criticality_alignment, h]
  · intro st cr ms h
    have hb : (lowerStr cr == "high") = false := beq_eq_false_iff_ne.mpr h
    simp only [_check_criticality_alignment, hb, Bool.false_eq_true, if_false]
    split <;> rename_i htrig
    · rw [Bool.not_eq_true', List.isEmpty_eq_false] at htrig
      refine iff_of_true rfl ?_
      obtain ⟨t, ht⟩ := List.exists_mem_of_ne_nil _ htrig
      obtain ⟨hmem, hp⟩ := List.mem_filter.mp ht
      exact ⟨t, hmem, by simpa using hp⟩
    · simp only [Bool.not_eq_true, Bool.not_eq_false', List.isEmpty_iff]
        at htrig
      refine iff_of_false (by simp) ?_
      rintro ⟨t, hmem, hor⟩
      have := (List.filter_eq_nil_iff.mp htrig) t hmem
      exact this (by simpa using hor)
  · intro st cr ms h hfail
    have hb : (lowerStr cr == "high") = false := beq_eq_false_iff_ne.mpr h
    simp only [_check_criticality_alignment, hb, Bool.false_eq_true,
      if_false] at hfail ⊢
    split at hfail <;> rename_i htrig
    · simp only [_check_criticality_alignment, hb, Bool.false_eq_true,
        if_false, htrig, if_true]
    · simp at hfail

/-- witness for C6 at a criticality literally equal to "High" (the pass
branch) applied through the theorem's first conjunct. -/
theorem c6_criticality_alignment_check_witness :
    (_check_criticality_alignment "The system shall log events." "High"
      []).status = "Pass" :=
  c6_criticality_alignment_check.1 "The system shall log events." "High" []
    (by decide)

/-- witness for C9 at a minimal URS with no retrieved chunks. -/
theorem c9_findings_fixed_order_witness :
    ∃ r, verify_urs
        [("URS_ID", "URS-1"), ("Requirement_Statement", "x"),
         ("Criticality", "Low"), ("Regulatory_Rationale", "y")] [] =
        Except.ok r ∧
      r.findings.map VerificationFinding.check_name =
        ["Criticality Alignment", "Rationale Relevance",
         "Contradiction Scan"] ∧
      (r.findings.map VerificationFinding.check_name).Nodup :=
  c9_findings_fixed_order
    [("URS_ID", "URS-1"), ("Requirement_Statement", "x"),
     ("Criticality", "Low"), ("Regulatory_Rationale", "y")] []
    (by decide)

/-! ## Claims about the audit ledger -/

instance {ε α : Type} [DecidableEq ε] [DecidableEq α] :
    DecidableEq (Except ε α)
  | .error a, .error b =>
      if h : a = b then .isTrue (congrArg Except.error h)
      else .isFalse (fun hc => h (Except.error.inj hc))
  | .error _, .ok _ => .isFalse Except.noConfusion
  | .ok _, .error _ => .isFalse Except.noConfusion
  | .ok a, .ok b =>
      if h : a = b then .isTrue (congrArg Except.ok h)
      else .isFalse (fun hc => h (Except.ok.inj hc))

/-- C2 counterexample: calling `log_audit_event` with a thought process
that lacks the required `steps` key does raise the malformed-reasoning
fault (a `ValueError`), but only after the audit row has been appended —
the audit-trail file is not left unchanged, contradicting the claim that
the fault fires before any bytes are written. -/
theorem c2_counterexample_row_written_before_fault :
    (log_audit_event "2024-01-01T00:00:00+00:00" "RiskStrategist"
        "RISK_ASSESSMENT_COMPLETED" "SYSTEM" "Assessed risk" none
        (some { inputs := some "change request CR-1", steps := none,
                outputs := some "risk level High" })
        { rows := [CSV_COLUMNS], archives := [] }).2 =
      Except.error "thought_process missing required keys: steps" ∧
    (log_audit_event "2024-01-01T00:00:00+00:00" "RiskStrategist"
        "RISK_ASSESSMENT_COMPLETED" "SYSTEM" "Assessed risk" none
        (some { inputs := some "change request CR-1", steps := none,
                outputs := some "risk level High" })
        { rows := [CSV_COLUMNS], archives := [] }).1.rows ≠
      [CSV_COLUMNS] := by
  constructor
  · decide
  · decide

/-- C2 (amended): when the supplied thought process is missing a required
sub-field, `log_audit_event` raises the malformed-reasoning fault, but only
after appending the audit record: the returned file state already contains
the new CSV row (with its reasoning hash), and only the logic-archive file
is withheld. -/
theorem c2_amended_fault_after_append :
    ∀ (ts agent action uid logic : String) (ci : Option String)
      (tp : ThoughtProcess) (st : AuditState),
      missingTPKeys tp ≠ [] →
      (log_audit_event ts agent action uid logic ci (some tp) st).2 =
        Except.error ("thought_process missing required keys: " ++
          strJoin ", " (missingTPKeys tp)) ∧
      (log_audit_event ts agent action uid logic ci (some tp) st).1.rows =
        _ensure_csv_header st.rows ++
          [[ts, uid, agent, action, logic,
            _compute_reasoning_hash ts uid agent action logic
              (match ci with
               | none => (_IMPACT_MAP.lookup action).getD DEFAULT_IMPACT
               | some c => c),
            (match ci with
             | none => (_IMPACT_MAP.lookup action).getD DEFAULT_IMPACT
             | some c => c)]] ∧
      (log_audit_event ts agent action uid logic ci (some tp) st).1.archives
        = st.archives := by
  intro ts agent action uid logic ci tp st h
  have hv : _validate_thought_process tp =
      Except.error ("thought_process missing required keys: " ++
        strJoin ", " (missingTPKeys tp)) := by
    unfold _validate_thought_process
    simp [List.isEmpty_eq_false.mpr h]
  simp only [log_audit_event]
  rw [hv]
  exact ⟨rfl, rfl, rfl⟩

/-- witness for C2's amended theorem at the counterexample's input. -/
theorem c2_amended_fault_after_append_witness :
    (log_audit_event "2024-01-01T00:00:00+00:00" "RiskStrategist"
        "RISK_ASSESSMENT_COMPLETED" "SYSTEM" "Assessed risk" none
        (some { inputs := some "change request CR-1", steps := none,
                outputs := some "risk level High" })
        { rows := [CSV_COLUMNS], archives := [] }).2 =
      Except.error ("thought_process missing required keys: " ++
        strJoin ", "
          (missingTPKeys
            { inputs := some "change request CR-1", steps := none,
              outputs := some "risk level High" })) ∧
    (log_audit_event "2024-01-01T00:00:00+00:00" "RiskStrategist"
        "RISK_ASSESSMENT_COMPLETED" "SYSTEM" "Assessed risk" none
        (some { inputs := some "change request CR-1", steps := none,
                outputs := some "risk level High" })
        { rows := [CSV_COLUMNS], archives := [] }).1.rows =
      _ensure_csv_header [CSV_COLUMNS] ++
        [["2024-01-01T00:00:00+00:00", "SYSTEM", "RiskStrategist",
          "RISK_ASSESSMENT_COMPLETED", "Assessed risk",
          _compute_reasoning_hash "2024-01-01T00:00:00+00:00" "SYSTEM"
            "RiskStrategist" "RISK_ASSESSMENT_COMPLETED" "Assessed risk"
            "Patient Safety",
          "Patient Safety"]] ∧
    (log_audit_event "2024-01-01T00:00:00+00:00" "RiskStrategist"
        "RISK_ASSESSMENT_COMPLETED" "SYSTEM" "Assessed risk" none
        (some { inputs := some "change request CR-1", steps := none,
                outputs := some "risk level High" })
        { rows := [CSV_COLUMNS], archives := [] }).1.archives = [] :=
  c2_amended_fault_after_append "2024-01-01T00:00:00+00:00" "RiskStrategist"
    "RISK_ASSESSMENT_COMPLETED" "SYSTEM" "Assessed risk" none
    { inputs := some "change request CR-1", steps := none,
      outputs := some "risk level High" }
    { rows := [CSV_COLUMNS], archives := [] } (by decide)

lemma reasoningPayload_eq (t u a ac d c : String) :
    reasoningPayload t u a ac d c =
      t ++ "|" ++ u ++ "|" ++ a ++ "|" ++ ac ++ "|" ++ d ++ "|" ++ c := by
  simp [reasoningPayload, strJoin, String.append_assoc]

lemma str_append_cancel_suffix (a b s : String) (h : a ++ s = b ++ s) :
    a = b := by
  have hd := congrArg String.data h
  rw [String.data_append, String.data_append] at hd
  exact String.ext (List.append_cancel_right hd)

/-- C7: the hash written into the audit row and returned to the caller is
the SHA-256 hex digest of exactly the six field values timestamp, actor id,
agent name, action, decision logic and compliance impact, serialized in
that order (the source joins them with a `"|"` separator); two appends with
identical fields but different timestamps therefore have different hash
inputs, and recomputing the hash of a concrete record after altering its
decision-logic field yields a different value than the stored hash. -/
theorem c7_reasoning_hash_fields_and_tamper :
    (∀ (ts uid agent action logic impact : String) (st : AuditState),
      (log_audit_event ts agent action uid logic (some impact) none st).2 =
        Except.ok
          (sha256Hex (reasoningPayload ts uid agent action logic impact)) ∧
      (log_audit_event ts agent action uid logic (some impact) none st).1.rows
        = _ensure_csv_header st.rows ++
            [[ts, uid, agent, action, logic,
              sha256Hex (reasoningPayload ts uid agent action logic impact),
              impact]]) ∧
    (∀ ts uid agent action logic impact,
      reasoningPayload ts uid agent action logic impact =
        ts ++ "|" ++ uid ++ "|" ++ agent ++ "|" ++ action ++ "|" ++ logic ++
          "|" ++ impact) ∧
    (∀ ts1 ts2 uid agent action logic impact, ts1 ≠ ts2 →
      reasoningPayload ts1 uid agent action logic impact ≠
        reasoningPayload ts2 uid agent action logic impact) ∧
    (_compute_reasoning_hash "2024-01-01T00:00:00+00:00" "SYSTEM"
        "RiskStrategist" "RISK_ASSESSMENT_COMPLETED" "Assessed risk ALTERED"
        "Patient Safety" ≠
      _compute_reasoning_hash "2024-01-01T00:00:00+00:00" "SYSTEM"
        "RiskStrategist" "RISK_ASSESSMENT_COMPLETED" "Assessed risk"
        "Patient Safety") := by
  refine ⟨?_, reasoningPayload_eq, ?_, by set_option maxRecDepth 4096 in decide⟩
  · intro ts uid agent action logic impact st
    unfold log_audit_event
    exact ⟨rfl, rfl⟩
  · intro ts1 ts2 uid agent action logic impact hne heq
    apply hne
    rw [reasoningPayload_eq, reasoningPayload_eq] at heq
    simp only [String.append_assoc] at heq
    exact str_append_cancel_suffix ts1 ts2 _ heq

/-- witness for C7: two concrete appends differing only in the timestamp
have different hash inputs. -/
theorem c7_reasoning_hash_fields_and_tamper_witness :
    reasoningPayload "2024-01-01T00:00:00+00:00" "SYSTEM" "RiskStrategist"
        "RISK_ASSESSMENT_COMPLETED" "Assessed risk" "Patient Safety" ≠
      reasoningPayload "2024-01-02T09:30:00+00:00" "SYSTEM" "RiskStrategist"
        "RISK_ASSESSMENT_COMPLETED" "Assessed risk" "Patient Safety" :=
  c7_reasoning_hash_fields_and_tamper.2.2.1 "2024-01-01T00:00:00+00:00"
    "2024-01-02T09:30:00+00:00" "SYSTEM" "RiskStrategist"
    "RISK_ASSESSMENT_COMPLETED" "Assessed risk" "Patient Safety" (by decide)

end CSVGC
